import Mathlib

/-!
Verification of the recipe CRUD data-access layer
(`src/index.ts` and its near-duplicate unnamed variant, plus
`src/config/mongo.ts`) of the `ts-crud-mongoose-app` repository.

The TypeScript code wraps five Mongoose calls (`save`, `find`, `findById`,
`findByIdAndUpdate`, `findByIdAndDelete`) and normalises every outcome into a
`QueryResponse` envelope.  We shallowly embed:

* the entity model (`IIngredients`, `RecipeInput`, `RecipeUpdateInput`,
  stored recipe documents with generated id and timestamps);
* the response envelope and its constructor `createQueryResponse`;
* a pure model of the Mongo/Mongoose storage boundary (`DbState`,
  `saveRecipe`, `findById`, `updateById`, `deleteById`) reflecting the schema
  options used by the repository: `title` trimmed and unique (duplicate key
  error E11000, numeric code 11000), required string fields rejecting the
  empty string, `isVegetarian` defaulting to `true`, `timestamps: true`
  maintaining `createdAt` and `updatedAt`, and Mongoose's `CastError` (which
  carries no numeric `code`) on a malformed ObjectId;
* both implementations of the five operations: the version in
  `src/src/index.ts` (primary) and the version in the unnamed duplicate file
  (suffix `V2`), which differ only in message wording and in how a caught
  error is mapped to `statusCode`.

JavaScript numbers are modelled as `Int` (no claim depends on fractional
values); a thrown storage error is a value `StorageError` with a `message`
and an optional numeric `code`, matching the duck-typed inspection
`typeof (error as any).code === "number"` in the source.
-/

/-- Ingredient structure for recipes (interface `IIngredients`). -/
structure IIngredients where
  name : String
  amount : String
deriving Repr, DecidableEq

/-- Input for recipe creation (interface `RecipeInput`: `description` and
`isVegetarian` optional; the runtime payload given to `createRecipe` may omit
them, the schema default then applies). -/
structure RecipeInput where
  title : String
  description : Option String
  ingredients : List IIngredients
  preparationTime : Int
  portions : Int
  isVegetarian : Option Bool
deriving Repr, DecidableEq

/-- Input for recipe updates (interface `RecipeUpdateInput`: all fields
optional). -/
structure RecipeUpdateInput where
  title : Option String := none
  description : Option String := none
  ingredients : Option (List IIngredients) := none
  preparationTime : Option Int := none
  portions : Option Int := none
  isVegetarian : Option Bool := none
deriving Repr, DecidableEq

/-- A recipe document as persisted by the storage layer: the `IRecipe`
fields plus the storage-generated `_id` and the `timestamps: true`
fields `createdAt` / `updatedAt`. -/
structure StoredRecipe where
  id : String
  title : String
  description : Option String
  ingredients : List IIngredients
  preparationTime : Int
  portions : Int
  isVegetarian : Bool
  createdAt : Nat
  updatedAt : Nat
deriving Repr, DecidableEq

/-- The `error` field of the envelope: `{ details: string; statusCode: number }`. -/
structure QueryError where
  details : String
  statusCode : Int
deriving Repr, DecidableEq

/-- The payload field of the envelope: `IRecipe | IRecipe[]`. -/
inductive QueryData where
  | one : StoredRecipe → QueryData
  | many : List StoredRecipe → QueryData
deriving Repr, DecidableEq

/-- Standard response format for all operations (interface `QueryResponse`). -/
structure QueryResponse where
  success : Bool
  message : String
  data : Option QueryData
  error : Option QueryError
deriving Repr, DecidableEq

/-- `createQueryResponse`: pure constructor applying the destructuring
defaults `data = null`, `error = null`.  Call sites that omit `data` or
`error` pass `none` here. -/
def createQueryResponse (success : Bool) (message : String)
    (data : Option QueryData) (error : Option QueryError) : QueryResponse :=
  { success := success, message := message, data := data, error := error }

/-- A storage-layer error as the `catch` blocks see it: an `Error` with a
`message` and possibly a numeric `code` field (absent on Mongoose
`ValidationError` / `CastError`, `11000` on a Mongo duplicate-key error). -/
structure StorageError where
  message : String
  code : Option Int
deriving Repr, DecidableEq

/-- The state of the recipe collection: the stored documents in insertion
order, a counter for id generation, and the current wall-clock time used for
the `timestamps: true` fields. -/
structure DbState where
  recipes : List StoredRecipe
  nextId : Nat
  now : Nat
deriving Repr, DecidableEq

/-- A MongoDB ObjectId in string form: 24 hexadecimal characters. -/
def isHexDigitChar (c : Char) : Bool :=
  (48 ≤ c.toNat && c.toNat ≤ 57) || (97 ≤ c.toNat && c.toNat ≤ 102) ||
    (65 ≤ c.toNat && c.toNat ≤ 70)

/-- Whether a caller-supplied id string is a syntactically valid ObjectId
for the storage backend (Mongoose casts it, throwing `CastError` otherwise). -/
def validObjectId (s : String) : Bool :=
  s.length == 24 && s.toList.all isHexDigitChar

/-- Storage-generated id for the `nextId`-th insertion: a 24-digit decimal
string (every decimal digit is also a hexadecimal digit, so generated ids are
always well-formed ObjectIds). -/
def freshId (n : Nat) : String :=
  String.mk ((List.range 24).map (fun i => Char.ofNat (48 + n / 10 ^ (23 - i) % 10)))

/-- The `trim: true` setter (JavaScript `String.prototype.trim`): strip
leading and trailing whitespace.  Defined over the character list so that it
computes by structural recursion. -/
def jsTrim (s : String) : String :=
  String.mk
    (((s.toList.dropWhile Char.isWhitespace).reverse.dropWhile Char.isWhitespace).reverse)

/-- Message strings of `src/src/index.ts`. -/
def msgCreateOk : String := "Recipe created successfully"

def msgCreateFail : String := "Recipe creation failed"

def msgListOk : String := "Recipes obtained successfully"

def msgListFail : String := "Failed to obtain recipies"

def msgGetOk : String := "Recipe found successfully"

def msgGetNotFound : String := "Recipe not found"

def detailsGetNotFound : String := "There is no document with that ID"

def msgGetFail : String := "Error searching for recipe"

def msgUpdateOk : String := "Recipe successfully updated"

def detailsUpdateNotFound : String := "Id does not exist"

def msgUpdateFail : String := "Error at updating recipe"

def msgDeleteOk : String := "Recipe successfully deleted"

def msgDeleteNotFound : String := "The recipe does not exist or has already been deleted"

def detailsDeleteNotFound : String := "Recipe not found"

def msgDeleteFail : String := "Error deleting book"

/-- Storage-side error values. -/
def dupKeyMessage : String := "E11000 duplicate key error collection: recipes index: title_1 dup key"

def dupKeyError : StorageError := { message := dupKeyMessage, code := some 11000 }

def validationMessage : String := "Recipe validation failed"

def validationError : StorageError := { message := validationMessage, code := none }

def castMessage : String := "Cast to ObjectId failed for value at path _id for model Recipe"

def castError : StorageError := { message := castMessage, code := none }

/-- Mongoose validation on `save`: `required: true` on a `String` path
rejects a missing or empty value (after the `trim` setter ran); the embedded
ingredient `name` and `amount` are each required; `preparationTime` and
`portions` are present by typing. -/
def recipeValid (d : RecipeInput) : Bool :=
  (!(jsTrim d.title == "")) &&
    d.ingredients.all (fun i => (!(i.name == "")) && (!(i.amount == "")))

/-- Document construction on `new Recipe(data)` / `save`: setters trim
`title` and `description`, the schema default fills `isVegetarian := true`
when omitted, and `timestamps: true` sets `createdAt` and `updatedAt`. -/
def buildRecipe (d : RecipeInput) (id : String) (now : Nat) : StoredRecipe :=
  { id := id
    title := jsTrim d.title
    description := d.description.map jsTrim
    ingredients := d.ingredients
    preparationTime := d.preparationTime
    portions := d.portions
    isVegetarian := d.isVegetarian.getD true
    createdAt := now
    updatedAt := now }

/-- `recipe.save()`: validate, then insert subject to the unique index on
`title`; on success the document (with generated id and timestamps) is
appended and returned. -/
def saveRecipe (d : RecipeInput) (s : DbState) :
    Except StorageError (StoredRecipe × DbState) :=
  if !(recipeValid d) then .error validationError
  else if s.recipes.any (fun r => r.title == jsTrim d.title) then .error dupKeyError
  else
    let doc := buildRecipe d (freshId s.nextId) s.now
    .ok (doc, { s with recipes := s.recipes ++ [doc], nextId := s.nextId + 1 })

/-- `Recipe.find()`: all documents; an empty collection yields `[]`, not a
failure. -/
def findAll (s : DbState) : List StoredRecipe :=
  s.recipes

/-- `Recipe.findById(id)`: `CastError` on a malformed id, otherwise the
matching document or `null`. -/
def findById (id : String) (s : DbState) :
    Except StorageError (Option StoredRecipe) :=
  if validObjectId id then .ok (s.recipes.find? (fun r => r.id == id))
  else .error castError

/-- Partial application of an update payload to a stored document
(`findByIdAndUpdate` with `new: true`): only supplied fields change, setters
trim a supplied `title` / `description`, and `timestamps: true` refreshes
`updatedAt`.  The `_id` is never touched. -/
def applyUpdate (d : RecipeUpdateInput) (r : StoredRecipe) (now : Nat) : StoredRecipe :=
  { r with
    title := match d.title with | some t => jsTrim t | none => r.title
    description := match d.description with | some t => some (jsTrim t) | none => r.description
    ingredients := d.ingredients.getD r.ingredients
    preparationTime := d.preparationTime.getD r.preparationTime
    portions := d.portions.getD r.portions
    isVegetarian := d.isVegetarian.getD r.isVegetarian
    updatedAt := now }

/-- Whether a supplied `title` in an update collides with a different
document, violating the unique index. -/
def updTitleConflict (id : String) (d : RecipeUpdateInput) (s : DbState) : Bool :=
  match d.title with
  | some t => s.recipes.any (fun x => (!(x.id == id)) && x.title == jsTrim t)
  | none => false

/-- `Recipe.findByIdAndUpdate(id, data, { new: true })`: `CastError` on a
malformed id; `null` when no document matches; otherwise the post-update
document, subject to the unique index on `title`. -/
def updateById (id : String) (d : RecipeUpdateInput) (s : DbState) :
    Except StorageError (Option StoredRecipe × DbState) :=
  if validObjectId id then
    match s.recipes.find? (fun r => r.id == id) with
    | none => .ok (none, s)
    | some r =>
      if updTitleConflict id d s then .error dupKeyError
      else
        let upd := applyUpdate d r s.now
        .ok (some upd,
          { s with recipes := s.recipes.map (fun x => if x.id == id then upd else x) })
  else .error castError

/-- `Recipe.findByIdAndDelete(id)`: `CastError` on a malformed id; `null`
when no document matches; otherwise removes and returns the matched
document. -/
def deleteById (id : String) (s : DbState) :
    Except StorageError (Option StoredRecipe × DbState) :=
  if validObjectId id then
    match s.recipes.find? (fun r => r.id == id) with
    | none => .ok (none, s)
    | some r => .ok (some r, { s with recipes := s.recipes.eraseP (fun x => x.id == id) })
  else .error castError

/-- `typeof (error as any).code === "number" ? (error as any).code : 500`
(the statusCode computation of `src/src/index.ts`). -/
def statusCodeOf (e : StorageError) : Int :=
  match e.code with
  | some c => c
  | none => 500

/-- `error.code || 500` (the statusCode computation of the unnamed
duplicate file): a falsy code — absent or the number 0 — falls back to 500. -/
def statusCodeOrElse (e : StorageError) : Int :=
  match e.code with
  | some c => if c == 0 then 500 else c
  | none => 500

/-- Outcome of `recipe.save()` as seen by the operation: the saved document
or a thrown storage error. -/
inductive SaveOutcome where
  | ok : StoredRecipe → SaveOutcome
  | thrown : StorageError → SaveOutcome

/-- Outcome of `Recipe.find()` as seen by the operation. -/
inductive FindOutcome where
  | ok : List StoredRecipe → FindOutcome
  | thrown : StorageError → FindOutcome

/-- Outcome of a by-id call (`findById`, `findByIdAndUpdate`,
`findByIdAndDelete`) as seen by the operation: a document, `null`, or a
thrown storage error. -/
inductive ByIdOutcome where
  | ok : StoredRecipe → ByIdOutcome
  | absent : ByIdOutcome
  | thrown : StorageError → ByIdOutcome

/-- `createRecipe` of `src/src/index.ts`: mapping from the `save` outcome to
the envelope (the `try` / `catch` structure). -/
def createRecipeResp : SaveOutcome → QueryResponse
  | .ok doc => createQueryResponse true msgCreateOk (some (.one doc)) none
  | .thrown e =>
      createQueryResponse false msgCreateFail none
        (some { details := e.message, statusCode := statusCodeOf e })

/-- `getRecipies` of `src/src/index.ts`: mapping from the `find` outcome to
the envelope. -/
def getRecipiesResp : FindOutcome → QueryResponse
  | .ok docs => createQueryResponse true msgListOk (some (.many docs)) none
  | .thrown e =>
      createQueryResponse false msgListFail none
        (some { details := e.message, statusCode := statusCodeOf e })

/-- `getRecipeById` of `src/src/index.ts`: mapping from the `findById`
outcome to the envelope. -/
def getRecipeByIdResp : ByIdOutcome → QueryResponse
  | .ok doc => createQueryResponse true msgGetOk (some (.one doc)) none
  | .absent =>
      createQueryResponse false msgGetNotFound none
        (some { details := detailsGetNotFound, statusCode := 404 })
  | .thrown e =>
      createQueryResponse false msgGetFail none
        (some { details := e.message, statusCode := statusCodeOf e })

/-- `updateRecipe` of `src/src/index.ts`: mapping from the
`findByIdAndUpdate` outcome to the envelope. -/
def updateRecipeResp : ByIdOutcome → QueryResponse
  | .ok doc => createQueryResponse true msgUpdateOk (some (.one doc)) none
  | .absent =>
      createQueryResponse false msgGetNotFound none
        (some { details := detailsUpdateNotFound, statusCode := 404 })
  | .thrown e =>
      createQueryResponse false msgUpdateFail none
        (some { details := e.message, statusCode := statusCodeOf e })

/-- `deleteRecipe` of `src/src/index.ts`: mapping from the
`findByIdAndDelete` outcome to the envelope. -/
def deleteRecipeResp : ByIdOutcome → QueryResponse
  | .ok doc => createQueryResponse true msgDeleteOk (some (.one doc)) none
  | .absent =>
      createQueryResponse false msgDeleteNotFound none
        (some { details := detailsDeleteNotFound, statusCode := 404 })
  | .thrown e =>
      createQueryResponse false msgDeleteFail none
        (some { details := e.message, statusCode := statusCodeOf e })

/-- `createRecipe` composed with the storage model: returns the envelope and
the resulting collection state (unchanged when the save threw). -/
def createRecipe (d : RecipeInput) (s : DbState) : QueryResponse × DbState :=
  match saveRecipe d s with
  | .ok (doc, t) => (createRecipeResp (.ok doc), t)
  | .error e => (createRecipeResp (.thrown e), s)

/-- `getRecipies` composed with the storage model. -/
def getRecipies (s : DbState) : QueryResponse × DbState :=
  (getRecipiesResp (.ok (findAll s)), s)

/-- `getRecipeById` composed with the storage model. -/
def getRecipeById (id : String) (s : DbState) : QueryResponse × DbState :=
  match findById id s with
  | .ok (some doc) => (getRecipeByIdResp (.ok doc), s)
  | .ok none => (getRecipeByIdResp .absent, s)
  | .error e => (getRecipeByIdResp (.thrown e), s)

/-- `updateRecipe` composed with the storage model. -/
def updateRecipe (id : String) (d : RecipeUpdateInput) (s : DbState) :
    QueryResponse × DbState :=
  match updateById id d s with
  | .ok (some doc, t) => (updateRecipeResp (.ok doc), t)
  | .ok (none, t) => (updateRecipeResp .absent, t)
  | .error e => (updateRecipeResp (.thrown e), s)

/-- `deleteRecipe` composed with the storage model. -/
def deleteRecipe (id : String) (s : DbState) : QueryResponse × DbState :=
  match deleteById id s with
  | .ok (some doc, t) => (deleteRecipeResp (.ok doc), t)
  | .ok (none, t) => (deleteRecipeResp .absent, t)
  | .error e => (deleteRecipeResp (.thrown e), s)

/-- Message strings of the unnamed duplicate implementation. -/
def msgCreateOkV2 : String := "Recipe created successfully"

def msgCreateFailV2 : String := "Recipe creation failed"

def msgListFoundV2 : String := "Recipes found"

def msgListEmptyV2 : String := "No recipes available"

def msgListFailV2 : String := "Failed to fetch recipes"

def msgGetOkV2 : String := "Recipe found successfully"

def msgGetNotFoundV2 : String := "Recipe not found"

def detailsNotFoundV2 : String := "Invalid recipe ID"

def msgGetFailV2 : String := "Invalid recipe ID"

def msgUpdateOkV2 : String := "Recipe updated"

def msgUpdateFailV2 : String := "Update failed"

def msgDeleteOkV2 : String := "Recipe deleted"

def msgDeleteFailV2 : String := "Deletion failed"

/-- `createRecipe` of the unnamed duplicate: statusCode is
`error.code || 500`. -/
def createRecipeRespV2 : SaveOutcome → QueryResponse
  | .ok doc => createQueryResponse true msgCreateOkV2 (some (.one doc)) none
  | .thrown e =>
      createQueryResponse false msgCreateFailV2 none
        (some { details := e.message, statusCode := statusCodeOrElse e })

/-- `getRecipies` of the unnamed duplicate: the success message depends on
whether the list is empty. -/
def getRecipiesRespV2 : FindOutcome → QueryResponse
  | .ok docs =>
      createQueryResponse true
        (if docs.length != 0 then msgListFoundV2 else msgListEmptyV2)
        (some (.many docs)) none
  | .thrown e =>
      createQueryResponse false msgListFailV2 none
        (some { details := e.message, statusCode := statusCodeOrElse e })

/-- `getRecipeById` of the unnamed duplicate: a thrown error is always
reported with statusCode 400. -/
def getRecipeByIdRespV2 : ByIdOutcome → QueryResponse
  | .ok doc => createQueryResponse true msgGetOkV2 (some (.one doc)) none
  | .absent =>
      createQueryResponse false msgGetNotFoundV2 none
        (some { details := detailsNotFoundV2, statusCode := 404 })
  | .thrown e =>
      createQueryResponse false msgGetFailV2 none
        (some { details := e.message, statusCode := 400 })

/-- `updateRecipe` of the unnamed duplicate. -/
def updateRecipeRespV2 : ByIdOutcome → QueryResponse
  | .ok doc => createQueryResponse true msgUpdateOkV2 (some (.one doc)) none
  | .absent =>
      createQueryResponse false msgGetNotFoundV2 none
        (some { details := detailsNotFoundV2, statusCode := 404 })
  | .thrown e =>
      createQueryResponse false msgUpdateFailV2 none
        (some { details := e.message, statusCode := statusCodeOrElse e })

/-- `deleteRecipe` of the unnamed duplicate. -/
def deleteRecipeRespV2 : ByIdOutcome → QueryResponse
  | .ok doc => createQueryResponse true msgDeleteOkV2 (some (.one doc)) none
  | .absent =>
      createQueryResponse false msgGetNotFoundV2 none
        (some { details := detailsNotFoundV2, statusCode := 404 })
  | .thrown e =>
      createQueryResponse false msgDeleteFailV2 none
        (some { details := e.message, statusCode := statusCodeOrElse e })

/-- `createRecipe` of the unnamed duplicate composed with the same storage
model. -/
def createRecipeV2 (d : RecipeInput) (s : DbState) : QueryResponse × DbState :=
  match saveRecipe d s with
  | .ok (doc, t) => (createRecipeRespV2 (.ok doc), t)
  | .error e => (createRecipeRespV2 (.thrown e), s)

/-- `getRecipies` of the unnamed duplicate composed with the storage model. -/
def getRecipiesV2 (s : DbState) : QueryResponse × DbState :=
  (getRecipiesRespV2 (.ok (findAll s)), s)

/-- `getRecipeById` of the unnamed duplicate composed with the storage
model. -/
def getRecipeByIdV2 (id : String) (s : DbState) : QueryResponse × DbState :=
  match findById id s with
  | .ok (some doc) => (getRecipeByIdRespV2 (.ok doc), s)
  | .ok none => (getRecipeByIdRespV2 .absent, s)
  | .error e => (getRecipeByIdRespV2 (.thrown e), s)

/-- `updateRecipe` of the unnamed duplicate composed with the storage
model. -/
def updateRecipeV2 (id : String) (d : RecipeUpdateInput) (s : DbState) :
    QueryResponse × DbState :=
  match updateById id d s with
  | .ok (some doc, t) => (updateRecipeRespV2 (.ok doc), t)
  | .ok (none, t) => (updateRecipeRespV2 .absent, t)
  | .error e => (updateRecipeRespV2 (.thrown e), s)

/-- `deleteRecipe` of the unnamed duplicate composed with the storage
model. -/
def deleteRecipeV2 (id : String) (s : DbState) : QueryResponse × DbState :=
  match deleteById id s with
  | .ok (some doc, t) => (deleteRecipeRespV2 (.ok doc), t)
  | .ok (none, t) => (deleteRecipeRespV2 .absent, t)
  | .error e => (deleteRecipeRespV2 (.thrown e), s)

/-- The envelope contract of section 4.2 of the specification:
`success = true` implies `error` absent; `success = false` implies `data`
absent and `error` present (every `QueryError` carries a string `details`
and a numeric `statusCode` by construction). -/
def envInvariant (q : QueryResponse) : Prop :=
  (q.success = true → q.error = none) ∧
    (q.success = false → q.data = none ∧ q.error ≠ none)

instance (q : QueryResponse) : Decidable (envInvariant q) := by
  unfold envInvariant
  infer_instance

/-- The statusCode carried by a (failure) envelope, if any. -/
def respStatusCode (q : QueryResponse) : Option Int :=
  q.error.map QueryError.statusCode

/-! ### Concrete fixtures used by witnesses and counterexamples -/

/-- An empty collection. -/
def dbEmpty : DbState := { recipes := [], nextId := 0, now := 100 }

def ingSpinach : IIngredients := { name := "Spinach", amount := "300g" }

/-- The creation payload of the usage example in `src/src/index.ts`. -/
def payloadSpinach : RecipeInput :=
  { title := "Spinach Pie"
    description := some "Vegetarian pie with spinach and cheese."
    ingredients := [ingSpinach]
    preparationTime := 45
    portions := 4
    isVegetarian := some true }

/-- The corresponding stored document. -/
def recSpinach : StoredRecipe :=
  { id := freshId 0
    title := "Spinach Pie"
    description := some "Vegetarian pie with spinach and cheese."
    ingredients := [ingSpinach]
    preparationTime := 45
    portions := 4
    isVegetarian := true
    createdAt := 100
    updatedAt := 100 }

/-- A collection holding exactly `recSpinach`. -/
def dbOne : DbState := { recipes := [recSpinach], nextId := 1, now := 200 }

/-! ### Helper lemmas -/

/-- Storage-generated ids are always syntactically valid ObjectIds. -/
theorem validObjectId_freshId (n : Nat) : validObjectId (freshId n) = true := by
  have hlen : (freshId n).length = 24 := by
    simp [freshId, String.length]
  have hall : ((freshId n).toList).all isHexDigitChar = true := by
    have hl : (freshId n).toList
        = (List.range 24).map (fun i => Char.ofNat (48 + n / 10 ^ (23 - i) % 10)) := rfl
    rw [hl, List.all_eq_true]
    intro c hc
    rw [List.mem_map] at hc
    obtain ⟨i, hi, hci⟩ := hc
    subst hci
    have hd : n / 10 ^ (23 - i) % 10 < 10 := Nat.mod_lt _ (by norm_num)
    set d := n / 10 ^ (23 - i) % 10 with hdd
    interval_cases d <;> decide
  unfold validObjectId
  rw [Bool.and_eq_true]
  exact ⟨by simp [hlen], hall⟩

/-- Inversion of a successful `saveRecipe`. -/
theorem saveRecipe_ok (d : RecipeInput) (s : DbState) (doc : StoredRecipe) (t : DbState)
    (h : saveRecipe d s = .ok (doc, t)) :
    recipeValid d = true ∧
      s.recipes.any (fun r => r.title == jsTrim d.title) = false ∧
      doc = buildRecipe d (freshId s.nextId) s.now ∧
      t = { s with recipes := s.recipes ++ [doc], nextId := s.nextId + 1 } := by
  unfold saveRecipe at h
  split at h
  next hv => simp at h
  next hv =>
    split at h
    next hdup => simp at h
    next hdup =>
      simp only [Except.ok.injEq, Prod.mk.injEq] at h
      obtain ⟨h1, h2⟩ := h
      refine ⟨by simpa using hv, by simpa using hdup, h1.symm, ?_⟩
      rw [← h2, h1]

/-! ### C1: every operation returns a well-formed envelope -/

/-- C1: for every input and every storage outcome (success, not-found,
thrown storage error), each of the five operations returns a
`QueryResponse` envelope — totality of the response mappers over all
outcomes models that no raw exception escapes the `try`/`catch` — and every
returned envelope satisfies the contract: `success = true` implies `error`
is null, and `success = false` implies `data` is null and `error` is
present (carrying a string `details` and numeric `statusCode` by
construction). -/
theorem envelope_invariant_all_ops :
    (∀ o : SaveOutcome, envInvariant (createRecipeResp o)) ∧
    (∀ o : FindOutcome, envInvariant (getRecipiesResp o)) ∧
    (∀ o : ByIdOutcome, envInvariant (getRecipeByIdResp o)) ∧
    (∀ o : ByIdOutcome, envInvariant (updateRecipeResp o)) ∧
    (∀ o : ByIdOutcome, envInvariant (deleteRecipeResp o)) ∧
    (∀ d s, envInvariant (createRecipe d s).1) ∧
    (∀ s, envInvariant (getRecipies s).1) ∧
    (∀ i s, envInvariant (getRecipeById i s).1) ∧
    (∀ i d s, envInvariant (updateRecipe i d s).1) ∧
    (∀ i s, envInvariant (deleteRecipe i s).1) := by
  have hc : ∀ o : SaveOutcome, envInvariant (createRecipeResp o) := by
    intro o; cases o <;> simp [createRecipeResp, createQueryResponse, envInvariant]
  have hl : ∀ o : FindOutcome, envInvariant (getRecipiesResp o) := by
    intro o; cases o <;> simp [getRecipiesResp, createQueryResponse, envInvariant]
  have hg : ∀ o : ByIdOutcome, envInvariant (getRecipeByIdResp o) := by
    intro o; cases o <;> simp [getRecipeByIdResp, createQueryResponse, envInvariant]
  have hu : ∀ o : ByIdOutcome, envInvariant (updateRecipeResp o) := by
    intro o; cases o <;> simp [updateRecipeResp, createQueryResponse, envInvariant]
  have hd : ∀ o : ByIdOutcome, envInvariant (deleteRecipeResp o) := by
    intro o; cases o <;> simp [deleteRecipeResp, createQueryResponse, envInvariant]
  refine ⟨hc, hl, hg, hu, hd, ?_, ?_, ?_, ?_, ?_⟩
  · intro d s
    unfold createRecipe
    cases saveRecipe d s with
    | ok p => obtain ⟨doc, t⟩ := p; exact hc _
    | error e => exact hc _
  · intro s
    exact hl _
  · intro i s
    unfold getRecipeById
    cases findById i s with
    | ok o => cases o with
      | some doc => exact hg _
      | none => exact hg _
    | error e => exact hg _
  · intro i d s
    unfold updateRecipe
    cases updateById i d s with
    | ok p =>
      obtain ⟨o, t⟩ := p
      cases o with
      | some doc => exact hu _
      | none => exact hu _
    | error e => exact hu _
  · intro i s
    unfold deleteRecipe
    cases deleteById i s with
    | ok p =>
      obtain ⟨o, t⟩ := p
      cases o with
      | some doc => exact hd _
      | none => exact hd _
    | error e => exact hd _

/-- Witness for C1 at concrete inputs: a malformed-id lookup, a thrown
storage error, and a successful creation all yield envelopes satisfying the
contract. -/
theorem envelope_invariant_all_ops_witness :
    envInvariant (getRecipeById "xyz" dbEmpty).1 ∧
      envInvariant (createRecipeResp (.thrown { message := "boom", code := none })) ∧
      envInvariant (createRecipe payloadSpinach dbEmpty).1 :=
  ⟨envelope_invariant_all_ops.2.2.2.2.2.2.2.1 "xyz" dbEmpty,
    envelope_invariant_all_ops.1 (.thrown { message := "boom", code := none }),
    envelope_invariant_all_ops.2.2.2.2.2.1 payloadSpinach dbEmpty⟩

/-! ### C8: listing an empty collection succeeds -/

/-- C8: when the collection is empty, `getRecipies` returns a success
envelope whose data is the empty sequence — never a failure envelope. -/
theorem list_empty_success (s : DbState) (h : s.recipes = []) :
    (getRecipies s).1.success = true ∧
      (getRecipies s).1.data = some (QueryData.many []) ∧
      (getRecipies s).1.error = none := by
  simp [getRecipies, getRecipiesResp, findAll, h, createQueryResponse]

/-- Witness for C8: the empty collection fixture. -/
theorem list_empty_success_witness :
    (getRecipies dbEmpty).1.success = true ∧
      (getRecipies dbEmpty).1.data = some (QueryData.many []) ∧
      (getRecipies dbEmpty).1.error = none :=
  list_empty_success dbEmpty rfl

/-! ### C9: `isVegetarian` defaults to `true` -/

/-- C9: a creation payload that omits `isVegetarian` yields a stored recipe
with `isVegetarian = true` (the schema default). -/
theorem create_default_isVegetarian (d : RecipeInput) (s : DbState)
    (h : d.isVegetarian = none) (doc : StoredRecipe)
    (hdoc : (createRecipe d s).1.data = some (QueryData.one doc)) :
    doc.isVegetarian = true := by
  unfold createRecipe at hdoc
  cases hq : saveRecipe d s with
  | error e =>
    rw [hq] at hdoc
    simp [createRecipeResp, createQueryResponse] at hdoc
  | ok p =>
    obtain ⟨doc2, t⟩ := p
    rw [hq] at hdoc
    obtain ⟨hv, hdup, hdoc2, hst⟩ := saveRecipe_ok d s doc2 t hq
    simp only [createRecipeResp, createQueryResponse, Option.some.injEq,
      QueryData.one.injEq] at hdoc
    rw [← hdoc, hdoc2]
    simp [buildRecipe, h]

/-- A creation payload omitting `isVegetarian`. -/
def payloadOat : RecipeInput :=
  { title := "Oatmeal Cookies"
    description := some "Healthy sugar-free snack."
    ingredients := [{ name := "Oats", amount := "2 cups" }]
    preparationTime := 25
    portions := 12
    isVegetarian := none }

/-- Witness for C9: creating `payloadOat` (no `isVegetarian`) stores a
recipe flagged vegetarian. -/
theorem create_default_isVegetarian_witness :
    (buildRecipe payloadOat (freshId 0) 100).isVegetarian = true :=
  create_default_isVegetarian payloadOat dbEmpty rfl
    (buildRecipe payloadOat (freshId 0) 100) (by decide)

/-! ### C3: duplicate title on create fails and leaves the collection
unchanged -/

/-- C3: if the collection already holds a recipe with title `t` (stored
titles are trimmed), `createRecipe` with any payload titled `t` returns a
failure envelope and the collection state is unchanged: nothing is
overwritten and no duplicate is added. -/
theorem create_duplicate_title_conflict (t : String) (d : RecipeInput) (s : DbState)
    (r : StoredRecipe) (hr : r ∈ s.recipes) (hrt : r.title = t) (hdt : d.title = t)
    (htrim : jsTrim t = t) :
    (createRecipe d s).1.success = false ∧ (createRecipe d s).2 = s := by
  unfold createRecipe
  cases hq : saveRecipe d s with
  | error e => simp [createRecipeResp, createQueryResponse]
  | ok p =>
    obtain ⟨doc, st⟩ := p
    obtain ⟨hv, hdup, hdoc, hst⟩ := saveRecipe_ok d s doc st hq
    exfalso
    have hany : s.recipes.any (fun x => x.title == jsTrim d.title) = true :=
      List.any_eq_true.mpr ⟨r, hr, by simp [hrt, hdt, htrim]⟩
    rw [hany] at hdup
    exact Bool.noConfusion hdup

/-- Witness for C3: creating a second "Spinach Pie" against `dbOne` fails
and leaves the collection as it was. -/
theorem create_duplicate_title_conflict_witness :
    (createRecipe payloadSpinach dbOne).1.success = false ∧
      (createRecipe payloadSpinach dbOne).2 = dbOne :=
  create_duplicate_title_conflict "Spinach Pie" payloadSpinach dbOne recSpinach
    (by decide) (by decide) (by decide) (by decide)

/-! ### C2: create followed by getById returns the created recipe -/

/-- C2: for every valid recipe payload (and a title not already taken, so
the create succeeds, and a generated id not already present — true of every
state the storage layer itself builds), `createRecipe` returns a stored
document and `getRecipeById` on that document's id returns a success
envelope carrying the very same document — in particular equal on title,
description, ingredients in order, preparationTime, portions and
isVegetarian. -/
theorem create_then_getById_roundtrip (d : RecipeInput) (s : DbState)
    (hv : recipeValid d = true)
    (hdup : s.recipes.any (fun r => r.title == jsTrim d.title) = false)
    (hfresh : ∀ r ∈ s.recipes, r.id ≠ freshId s.nextId) :
    ∃ doc : StoredRecipe,
      (createRecipe d s).1.success = true ∧
      (createRecipe d s).1.data = some (QueryData.one doc) ∧
      (getRecipeById doc.id (createRecipe d s).2).1.success = true ∧
      (getRecipeById doc.id (createRecipe d s).2).1.data = some (QueryData.one doc) ∧
      doc.title = jsTrim d.title ∧
      doc.description = d.description.map jsTrim ∧
      doc.ingredients = d.ingredients ∧
      doc.preparationTime = d.preparationTime ∧
      doc.portions = d.portions ∧
      doc.isVegetarian = d.isVegetarian.getD true := by
  refine ⟨buildRecipe d (freshId s.nextId) s.now, ?_⟩
  have hsave : saveRecipe d s = .ok (buildRecipe d (freshId s.nextId) s.now,
      { s with recipes := s.recipes ++ [buildRecipe d (freshId s.nextId) s.now],
               nextId := s.nextId + 1 }) := by
    unfold saveRecipe
    simp [hv, hdup]
  have hcr : createRecipe d s = (createRecipeResp (.ok (buildRecipe d (freshId s.nextId) s.now)),
      { s with recipes := s.recipes ++ [buildRecipe d (freshId s.nextId) s.now],
               nextId := s.nextId + 1 }) := by
    unfold createRecipe
    rw [hsave]
  have hvalid : validObjectId (buildRecipe d (freshId s.nextId) s.now).id = true :=
    validObjectId_freshId s.nextId
  have hfind : ((s.recipes ++ [buildRecipe d (freshId s.nextId) s.now]).find?
      (fun r => r.id == (buildRecipe d (freshId s.nextId) s.now).id))
      = some (buildRecipe d (freshId s.nextId) s.now) := by
    rw [List.find?_append]
    have hnone : s.recipes.find?
        (fun r => r.id == (buildRecipe d (freshId s.nextId) s.now).id) = none := by
      rw [List.find?_eq_none]
      intro x hx
      simpa using hfresh x hx
    rw [hnone]
    simp
  rw [hcr]
  have hg : getRecipeById (buildRecipe d (freshId s.nextId) s.now).id
      { s with recipes := s.recipes ++ [buildRecipe d (freshId s.nextId) s.now],
               nextId := s.nextId + 1 }
      = (getRecipeByIdResp (.ok (buildRecipe d (freshId s.nextId) s.now)),
         { s with recipes := s.recipes ++ [buildRecipe d (freshId s.nextId) s.now],
                  nextId := s.nextId + 1 }) := by
    unfold getRecipeById findById
    simp only [hvalid, if_true]
    rw [hfind]
  rw [hg]
  simp [createRecipeResp, getRecipeByIdResp, createQueryResponse, buildRecipe]

/-- Witness for C2: the "Spinach Pie" example payload against the empty
collection. -/
theorem create_then_getById_roundtrip_witness :
    ∃ doc : StoredRecipe,
      (createRecipe payloadSpinach dbEmpty).1.success = true ∧
      (createRecipe payloadSpinach dbEmpty).1.data = some (QueryData.one doc) ∧
      (getRecipeById doc.id (createRecipe payloadSpinach dbEmpty).2).1.success = true ∧
      (getRecipeById doc.id (createRecipe payloadSpinach dbEmpty).2).1.data
        = some (QueryData.one doc) ∧
      doc.title = jsTrim payloadSpinach.title ∧
      doc.description = payloadSpinach.description.map jsTrim ∧
      doc.ingredients = payloadSpinach.ingredients ∧
      doc.preparationTime = payloadSpinach.preparationTime ∧
      doc.portions = payloadSpinach.portions ∧
      doc.isVegetarian = payloadSpinach.isVegetarian.getD true :=
  create_then_getById_roundtrip payloadSpinach dbEmpty (by decide) (by decide)
    (by intro r hr; simp [dbEmpty] at hr)

/-! ### C5: getById statusCodes (corrected) -/

/-- C5 counterexample: the claim says a malformed identifier yields
statusCode 400, but in `src/src/index.ts` the thrown `CastError` carries no
numeric `code`, so the catch block defaults the statusCode to 500:
`getRecipeById "xyz"` returns 500, not 400. -/
theorem getById_malformed_counterexample :
    (getRecipeById "xyz" dbEmpty).1.success = false ∧
      respStatusCode (getRecipeById "xyz" dbEmpty).1 = some 500 ∧
      ¬ respStatusCode (getRecipeById "xyz" dbEmpty).1 = some 400 := by decide

/-- C5 (amended): a well-formed id with no matching document yields
`success = false` with statusCode 404; a malformed id yields
`success = false` with statusCode 500 (the `CastError` has no numeric
`code`, so the default 500 applies). -/
theorem getById_notFound_404_malformed_500 (i : String) (s : DbState) :
    (validObjectId i = true → s.recipes.find? (fun r => r.id == i) = none →
      (getRecipeById i s).1.success = false ∧
        respStatusCode (getRecipeById i s).1 = some 404) ∧
    (validObjectId i = false →
      (getRecipeById i s).1.success = false ∧
        respStatusCode (getRecipeById i s).1 = some 500) := by
  constructor
  · intro hv hf
    unfold getRecipeById findById
    simp only [hv, if_true]
    rw [hf]
    simp [getRecipeByIdResp, createQueryResponse, respStatusCode]
  · intro hv
    unfold getRecipeById findById
    simp only [hv, Bool.false_eq_true, if_false]
    simp [getRecipeByIdResp, createQueryResponse, respStatusCode, statusCodeOf, castError]

/-- Witness for C5: a fresh well-formed id against the one-recipe fixture
(404), and the malformed id `"xyz"` (500). -/
theorem getById_notFound_404_malformed_500_witness :
    ((getRecipeById (freshId 1) dbOne).1.success = false ∧
      respStatusCode (getRecipeById (freshId 1) dbOne).1 = some 404) ∧
    ((getRecipeById "xyz" dbOne).1.success = false ∧
      respStatusCode (getRecipeById "xyz" dbOne).1 = some 500) :=
  ⟨(getById_notFound_404_malformed_500 (freshId 1) dbOne).1 (by decide) (by decide),
    (getById_notFound_404_malformed_500 "xyz" dbOne).2 (by decide)⟩

/-! ### C4: create failure statusCodes (corrected) -/

/-- An entity-invalid payload: empty (required) title. -/
def payloadBad : RecipeInput :=
  { title := ""
    description := none
    ingredients := []
    preparationTime := 1
    portions := 1
    isVegetarian := none }

/-- C4 counterexample: the claim says duplicate-title conflicts surface as
409 and validation failures as 400; the code surfaces the storage error's
own numeric code — 11000 for a Mongo duplicate key — and defaults to 500
when the error (a Mongoose `ValidationError`) carries no numeric code. -/
theorem create_statusCode_counterexample :
    ((createRecipe payloadSpinach dbOne).1.success = false ∧
      respStatusCode (createRecipe payloadSpinach dbOne).1 = some 11000 ∧
      ¬ respStatusCode (createRecipe payloadSpinach dbOne).1 = some 409) ∧
    ((createRecipe payloadBad dbEmpty).1.success = false ∧
      respStatusCode (createRecipe payloadBad dbEmpty).1 = some 500 ∧
      ¬ respStatusCode (createRecipe payloadBad dbEmpty).1 = some 400) := by decide

/-- C4 (amended): whenever `createRecipe` fails, the failure envelope's
statusCode is the storage error's numeric `code` when present and 500
otherwise: an entity-validation failure (whose error has no numeric code)
yields 500, and a duplicate-title conflict yields the Mongo duplicate-key
code 11000. -/
theorem create_failure_statusCode_policy (d : RecipeInput) (s : DbState) :
    (recipeValid d = false →
      (createRecipe d s).1.success = false ∧
        respStatusCode (createRecipe d s).1 = some 500) ∧
    (recipeValid d = true →
      s.recipes.any (fun r => r.title == jsTrim d.title) = true →
      (createRecipe d s).1.success = false ∧
        respStatusCode (createRecipe d s).1 = some 11000) := by
  constructor
  · intro hv
    unfold createRecipe saveRecipe
    simp [hv, createRecipeResp, createQueryResponse, respStatusCode, statusCodeOf,
      validationError]
  · intro hv hdup
    unfold createRecipe saveRecipe
    simp [hv, hdup, createRecipeResp, createQueryResponse, respStatusCode, statusCodeOf,
      dupKeyError]

/-- Witness for C4: the invalid payload (500) and the duplicate "Spinach
Pie" (11000). -/
theorem create_failure_statusCode_policy_witness :
    ((createRecipe payloadBad dbEmpty).1.success = false ∧
      respStatusCode (createRecipe payloadBad dbEmpty).1 = some 500) ∧
    ((createRecipe payloadSpinach dbOne).1.success = false ∧
      respStatusCode (createRecipe payloadSpinach dbOne).1 = some 11000) :=
  ⟨(create_failure_statusCode_policy payloadBad dbEmpty).1 (by decide),
    (create_failure_statusCode_policy payloadSpinach dbOne).2 (by decide) (by decide)⟩

/-! ### C6: update/delete on an absent id return 404 -/

/-- After erasing the (unique) match for an id, no document with that id
remains: ids are pairwise distinct in every collection the storage layer
builds. -/
theorem find?_eraseP_of_pairwise (l : List StoredRecipe) (i : String)
    (hp : l.Pairwise (fun a b => a.id ≠ b.id)) :
    (l.eraseP (fun x => x.id == i)).find? (fun x => x.id == i) = none := by
  induction l with
  | nil => simp
  | cons a l ih =>
    rw [List.pairwise_cons] at hp
    obtain ⟨ha, hl⟩ := hp
    by_cases hpa : (a.id == i) = true
    · rw [@List.eraseP_cons_of_pos _ a l (fun x => x.id == i) hpa, List.find?_eq_none]
      intro x hx
      have hax := ha x hx
      simp only [beq_iff_eq] at hpa ⊢
      rw [← hpa]
      exact fun hxi => hax hxi.symm
    · rw [@List.eraseP_cons_of_neg _ a l (fun x => x.id == i) hpa,
        @List.find?_cons_of_neg _ (fun x => x.id == i) a
          (l.eraseP (fun x => x.id == i)) hpa]
      exact ih hl

/-- C6: for every well-formed id with no matching document, `updateRecipe`
and `deleteRecipe` both return `success = false` with statusCode 404 (and
the collection is untouched); and after a successful delete of an id (ids
being pairwise distinct), deleting the same id again returns statusCode
404 — delete is idempotent in effect on an absent id, no exception is
raised. -/
theorem update_delete_absent_404 (i : String) (d : RecipeUpdateInput) (s : DbState)
    (hv : validObjectId i = true) :
    (s.recipes.find? (fun r => r.id == i) = none →
      (updateRecipe i d s).1.success = false ∧
        respStatusCode (updateRecipe i d s).1 = some 404 ∧
        (deleteRecipe i s).1.success = false ∧
        respStatusCode (deleteRecipe i s).1 = some 404 ∧
        (deleteRecipe i s).2 = s) ∧
    (s.recipes.Pairwise (fun a b => a.id ≠ b.id) →
      ∀ r, s.recipes.find? (fun x => x.id == i) = some r →
        (deleteRecipe i s).1.success = true ∧
        (deleteRecipe i (deleteRecipe i s).2).1.success = false ∧
        respStatusCode (deleteRecipe i (deleteRecipe i s).2).1 = some 404) := by
  constructor
  · intro hf
    have hu : updateRecipe i d s = (updateRecipeResp .absent, s) := by
      unfold updateRecipe updateById
      simp only [hv, if_true]
      rw [hf]
    have hd : deleteRecipe i s = (deleteRecipeResp .absent, s) := by
      unfold deleteRecipe deleteById
      simp only [hv, if_true]
      rw [hf]
    rw [hu, hd]
    refine ⟨rfl, rfl, rfl, rfl, rfl⟩
  · intro hp r hf
    have hd : deleteRecipe i s
        = (deleteRecipeResp (.ok r),
           { s with recipes := s.recipes.eraseP (fun x => x.id == i) }) := by
      unfold deleteRecipe deleteById
      simp only [hv, if_true]
      rw [hf]
    rw [hd]
    have hf2 : (s.recipes.eraseP (fun x => x.id == i)).find? (fun x => x.id == i) = none :=
      find?_eraseP_of_pairwise s.recipes i hp
    have hd2 : deleteRecipe i { s with recipes := s.recipes.eraseP (fun x => x.id == i) }
        = (deleteRecipeResp .absent,
           { s with recipes := s.recipes.eraseP (fun x => x.id == i) }) := by
      unfold deleteRecipe deleteById
      simp only [hv, if_true]
      rw [hf2]
    rw [hd2]
    refine ⟨rfl, rfl, rfl⟩

/-- The empty partial update `update(id, \x7b\x7d)`. -/
def emptyUpdate : RecipeUpdateInput :=
  { title := none
    description := none
    ingredients := none
    preparationTime := none
    portions := none
    isVegetarian := none }

/-- Witness for C6: against the one-recipe fixture, updating or deleting a
fresh id gives 404, and deleting the stored recipe then deleting it again
gives success then 404. -/
theorem update_delete_absent_404_witness :
    ((updateRecipe (freshId 1) emptyUpdate dbOne).1.success = false ∧
      respStatusCode (updateRecipe (freshId 1) emptyUpdate dbOne).1 = some 404 ∧
      (deleteRecipe (freshId 1) dbOne).1.success = false ∧
      respStatusCode (deleteRecipe (freshId 1) dbOne).1 = some 404 ∧
      (deleteRecipe (freshId 1) dbOne).2 = dbOne) ∧
    ((deleteRecipe (freshId 0) dbOne).1.success = true ∧
      (deleteRecipe (freshId 0) (deleteRecipe (freshId 0) dbOne).2).1.success = false ∧
      respStatusCode (deleteRecipe (freshId 0) (deleteRecipe (freshId 0) dbOne).2).1
        = some 404) :=
  ⟨(update_delete_absent_404 (freshId 1) emptyUpdate dbOne (by decide)).1 (by decide),
    (update_delete_absent_404 (freshId 0) emptyUpdate dbOne (by decide)).2
      (by simp [dbOne]) recSpinach (by decide)⟩

/-! ### C7: partial-update semantics -/

/-- C7: for every stored recipe and every partial payload, a successful
`updateRecipe` returns a document with the same id whose omitted fields are
unchanged and whose `updatedAt` is refreshed to the call time; and the
empty partial payload succeeds, returning the recipe unchanged except for
the refreshed `updatedAt`. -/
theorem update_frame_semantics (i : String) (s : DbState) (r : StoredRecipe)
    (hv : validObjectId i = true)
    (hfind : s.recipes.find? (fun x => x.id == i) = some r) :
    (∀ (d : RecipeUpdateInput) (doc : StoredRecipe),
      (updateRecipe i d s).1.data = some (QueryData.one doc) →
        doc.id = r.id ∧
        (d.title = none → doc.title = r.title) ∧
        (d.description = none → doc.description = r.description) ∧
        (d.ingredients = none → doc.ingredients = r.ingredients) ∧
        (d.preparationTime = none → doc.preparationTime = r.preparationTime) ∧
        (d.portions = none → doc.portions = r.portions) ∧
        (d.isVegetarian = none → doc.isVegetarian = r.isVegetarian) ∧
        doc.createdAt = r.createdAt ∧
        doc.updatedAt = s.now) ∧
    ((updateRecipe i emptyUpdate s).1.success = true ∧
      (updateRecipe i emptyUpdate s).1.data
        = some (QueryData.one { r with updatedAt := s.now })) := by
  constructor
  · intro d doc hdoc
    unfold updateRecipe updateById at hdoc
    simp only [hv, if_true] at hdoc
    rw [hfind] at hdoc
    by_cases hc : updTitleConflict i d s = true
    · rw [hc] at hdoc
      simp [updateRecipeResp, createQueryResponse] at hdoc
    · rw [Bool.not_eq_true] at hc
      rw [hc] at hdoc
      simp only [Bool.false_eq_true, if_false, updateRecipeResp, createQueryResponse,
        Option.some.injEq, QueryData.one.injEq] at hdoc
      rw [← hdoc]
      unfold applyUpdate
      refine ⟨rfl, ?_, ?_, ?_, ?_, ?_, ?_, rfl, rfl⟩
      · intro h0; rw [h0]
      · intro h0; rw [h0]
      · intro h0; rw [h0]; rfl
      · intro h0; rw [h0]; rfl
      · intro h0; rw [h0]; rfl
      · intro h0; rw [h0]; rfl
  · have hc : updTitleConflict i emptyUpdate s = false := rfl
    have happ : applyUpdate emptyUpdate r s.now = { r with updatedAt := s.now } := rfl
    have hu : updateRecipe i emptyUpdate s
        = (updateRecipeResp (.ok { r with updatedAt := s.now }),
           { s with
             recipes := (s.recipes.map
               (fun x => if x.id == i then { r with updatedAt := s.now } else x)) }) := by
      unfold updateRecipe updateById
      simp only [hv, if_true]
      rw [hfind, hc]
      simp only [Bool.false_eq_true, if_false, happ]
    rw [hu]
    exact ⟨rfl, rfl⟩

/-- Witness for C7: the empty partial update applied to the stored
"Spinach Pie" succeeds and only refreshes `updatedAt`. -/
theorem update_frame_semantics_witness :
    (updateRecipe (freshId 0) emptyUpdate dbOne).1.success = true ∧
      (updateRecipe (freshId 0) emptyUpdate dbOne).1.data
        = some (QueryData.one { recSpinach with updatedAt := 200 }) :=
  (update_frame_semantics (freshId 0) dbOne recSpinach (by decide) (by decide)).2

/-! ### C10: agreement between the two implementations (corrected) -/

/-- C10 counterexample: on a malformed id, `getRecipeById` of
`src/src/index.ts` returns statusCode 500 (the `CastError` carries no
numeric `code`), while the unnamed duplicate hard-codes 400 in its catch
block — the two failure statusCodes disagree. -/
theorem impls_statusCode_disagreement :
    (getRecipeById "xyz" dbEmpty).1.success = (getRecipeByIdV2 "xyz" dbEmpty).1.success ∧
      respStatusCode (getRecipeById "xyz" dbEmpty).1 = some 500 ∧
      respStatusCode (getRecipeByIdV2 "xyz" dbEmpty).1 = some 400 ∧
      ¬ respStatusCode (getRecipeById "xyz" dbEmpty).1
          = respStatusCode (getRecipeByIdV2 "xyz" dbEmpty).1 := by decide

/-- C10 (amended): the two implementations agree on the success flag for
every input and every storage outcome; on failure they agree on statusCode
for the absent-document outcomes (404 on both sides) and, for
`createRecipe`, `getRecipies`, `updateRecipe` and `deleteRecipe`, on every
thrown error whose `code` is not the number 0 (one side computes
`typeof code === "number" ? code : 500`, the other `code || 500`); for
`getRecipeById` on a thrown error the first implementation returns the
error's numeric code (or 500) while the second always returns 400. -/
theorem impls_agreement_amended :
    (∀ o : SaveOutcome, (createRecipeResp o).success = (createRecipeRespV2 o).success) ∧
    (∀ o : FindOutcome, (getRecipiesResp o).success = (getRecipiesRespV2 o).success) ∧
    (∀ o : ByIdOutcome, (getRecipeByIdResp o).success = (getRecipeByIdRespV2 o).success) ∧
    (∀ o : ByIdOutcome, (updateRecipeResp o).success = (updateRecipeRespV2 o).success) ∧
    (∀ o : ByIdOutcome, (deleteRecipeResp o).success = (deleteRecipeRespV2 o).success) ∧
    (∀ d s, (createRecipe d s).1.success = (createRecipeV2 d s).1.success) ∧
    (∀ s, (getRecipies s).1.success = (getRecipiesV2 s).1.success) ∧
    (∀ i s, (getRecipeById i s).1.success = (getRecipeByIdV2 i s).1.success) ∧
    (∀ i d s, (updateRecipe i d s).1.success = (updateRecipeV2 i d s).1.success) ∧
    (∀ i s, (deleteRecipe i s).1.success = (deleteRecipeV2 i s).1.success) ∧
    (∀ e : StorageError, e.code ≠ some 0 →
      respStatusCode (createRecipeResp (.thrown e))
          = respStatusCode (createRecipeRespV2 (.thrown e)) ∧
        respStatusCode (getRecipiesResp (.thrown e))
          = respStatusCode (getRecipiesRespV2 (.thrown e)) ∧
        respStatusCode (updateRecipeResp (.thrown e))
          = respStatusCode (updateRecipeRespV2 (.thrown e)) ∧
        respStatusCode (deleteRecipeResp (.thrown e))
          = respStatusCode (deleteRecipeRespV2 (.thrown e))) ∧
    (respStatusCode (getRecipeByIdResp .absent)
      = respStatusCode (getRecipeByIdRespV2 .absent)) ∧
    (respStatusCode (updateRecipeResp .absent)
      = respStatusCode (updateRecipeRespV2 .absent)) ∧
    (respStatusCode (deleteRecipeResp .absent)
      = respStatusCode (deleteRecipeRespV2 .absent)) := by
  have hcodes : ∀ e : StorageError, e.code ≠ some 0 → statusCodeOf e = statusCodeOrElse e := by
    intro e he
    unfold statusCodeOf statusCodeOrElse
    cases hc : e.code with
    | none => rfl
    | some c =>
      rw [hc] at he
      have hc0 : ¬ c = 0 := fun h => he (by rw [h])
      simp [hc0]
  have hc : ∀ o : SaveOutcome, (createRecipeResp o).success = (createRecipeRespV2 o).success := by
    intro o; cases o <;> rfl
  have hl : ∀ o : FindOutcome, (getRecipiesResp o).success = (getRecipiesRespV2 o).success := by
    intro o; cases o <;> rfl
  have hg : ∀ o : ByIdOutcome, (getRecipeByIdResp o).success = (getRecipeByIdRespV2 o).success := by
    intro o; cases o <;> rfl
  have hu : ∀ o : ByIdOutcome, (updateRecipeResp o).success = (updateRecipeRespV2 o).success := by
    intro o; cases o <;> rfl
  have hd : ∀ o : ByIdOutcome, (deleteRecipeResp o).success = (deleteRecipeRespV2 o).success := by
    intro o; cases o <;> rfl
  refine ⟨hc, hl, hg, hu, hd, ?_, ?_, ?_, ?_, ?_, ?_, rfl, rfl, rfl⟩
  · intro d s
    unfold createRecipe createRecipeV2
    cases saveRecipe d s with
    | ok p => obtain ⟨doc, t⟩ := p; exact hc _
    | error e => exact hc _
  · intro s
    exact hl _
  · intro i s
    unfold getRecipeById getRecipeByIdV2
    cases findById i s with
    | ok o => cases o with
      | some doc => exact hg _
      | none => exact hg _
    | error e => exact hg _
  · intro i d s
    unfold updateRecipe updateRecipeV2
    cases updateById i d s with
    | ok p =>
      obtain ⟨o, t⟩ := p
      cases o with
      | some doc => exact hu _
      | none => exact hu _
    | error e => exact hu _
  · intro i s
    unfold deleteRecipe deleteRecipeV2
    cases deleteById i s with
    | ok p =>
      obtain ⟨o, t⟩ := p
      cases o with
      | some doc => exact hd _
      | none => exact hd _
    | error e => exact hd _
  · intro e he
    have h1 := hcodes e he
    refine ⟨?_, ?_, ?_, ?_⟩ <;>
      simp [createRecipeResp, createRecipeRespV2, getRecipiesResp, getRecipiesRespV2,
        updateRecipeResp, updateRecipeRespV2, deleteRecipeResp, deleteRecipeRespV2,
        createQueryResponse, respStatusCode, h1]

/-- Witness for C10 at concrete inputs: a code-free thrown error maps to
the same statusCode in both implementations of `createRecipe`, and the
success flags of the two `getRecipeById` versions agree on a malformed id. -/
theorem impls_agreement_amended_witness :
    (respStatusCode (createRecipeResp (.thrown castError))
      = respStatusCode (createRecipeRespV2 (.thrown castError))) ∧
    (getRecipeById "xyz" dbEmpty).1.success = (getRecipeByIdV2 "xyz" dbEmpty).1.success :=
  ⟨(impls_agreement_amended.2.2.2.2.2.2.2.2.2.2.1 castError (by decide)).1,
    impls_agreement_amended.2.2.2.2.2.2.2.1 "xyz" dbEmpty⟩
